import Mathlib

set_option maxHeartbeats 1000000

/-!
Verification development for the zlog repository: a shallow embedding of the
time-bucketed index-name generator, the buffered OpenSearch writer with its
flush/close lifecycle, and the logger construction / flush-and-rotate protocol,
together with theorems settling the spec claims.

Integer division and modulus below are Lean's `Int` `/` and `%`
(Euclidean: the remainder of a division by a positive literal is
non-negative), which agree with the floor semantics the civil-calendar
conversion requires.
-/

/-- Seconds since the Unix epoch; models a Go `time.Time` instant.  The
repository reads the current instant through the injectable `timeNow`
variable, which this embedding models as an explicit parameter. -/
abbrev Instant := Int

/-- A timezone, modelled as a fixed offset in seconds east of UTC
(models a Go `*time.Location`; `time.UTC` has offset 0). -/
abbrev TimeLocation := Int

/-- Models `time.UTC`. -/
def timeUTC : TimeLocation := 0

/-- Models `MustLoadLocation "Asia/Tokyo"`: fixed offset +09:00. -/
def tokyoLoc : TimeLocation := 32400

/-- Cumulative day counts before each month in a non-leap year; models the
`daysBefore` table of Go's `time` package (index 0..12). -/
def daysBefore : Nat → Nat
  | 0 => 0
  | 1 => 31
  | 2 => 59
  | 3 => 90
  | 4 => 120
  | 5 => 151
  | 6 => 181
  | 7 => 212
  | 8 => 243
  | 9 => 273
  | 10 => 304
  | 11 => 334
  | _ => 365

/-- Days since January 1 of year 1 (proleptic Gregorian) for a day number
`z` counted from the Unix epoch; 719162 days separate the two origins. -/
def absDays (z : Int) : Int := z + 719162

/-- Completed 400-year Gregorian cycles before day `z`; the first step of
Go `time.absDate`. -/
def eraOf (z : Int) : Int := absDays z / 146097

/-- Day index within the current 400-year cycle (0..146096). -/
def withinEra (z : Int) : Nat := (absDays z % 146097).toNat

/-- Completed centuries within the cycle (`n := d / daysPer100Years;
n -= n >> 2` of Go `time.absDate`). -/
def century (r : Nat) : Nat := r / 36524 - r / 36524 / 4

/-- Day index within the current century. -/
def centRem (r : Nat) : Nat := r - 36524 * century r

/-- Completed 4-year cycles within the century (`n := d / daysPer4Years`). -/
def quadInCent (r : Nat) : Nat := centRem r / 1461

/-- Day index within the current 4-year cycle. -/
def quadRem (r : Nat) : Nat := centRem r - 1461 * quadInCent r

/-- Completed years within the 4-year cycle (`n := d / 365; n -= n >> 2`). -/
def yearInQuad (r : Nat) : Nat := quadRem r / 365 - quadRem r / 365 / 4

/-- Zero-based day of the year (0..365). -/
def ydayOf (r : Nat) : Nat := quadRem r - 365 * yearInQuad r

/-- Completed years within the 400-year cycle (0..399). -/
def yearsInEra (r : Nat) : Nat :=
  100 * century r + 4 * quadInCent r + yearInQuad r

/-- Civil year of day number `z` (days since the Unix epoch); models the
year computation of Go `time.absDate`. -/
def yearOfDays (z : Int) : Int := 400 * eraOf z + (yearsInEra (withinEra z) + 1)

/-- Go `isLeap`: divisible by 4 and not by 100, or divisible by 400. -/
def isLeapYear (y : Int) : Bool := (y % 4 == 0 && y % 100 != 0) || y % 400 == 0

/-- The leap-year day adjustment of Go `time.absDate`: after February 29,
pretend the year is non-leap by dropping one day. -/
def adjDay (leap : Bool) (yd : Nat) : Nat :=
  if leap = true ∧ 59 < yd then yd - 1 else yd

/-- The zero-based month estimate of Go `time.absDate`: `day / 31`,
corrected upward by one when the estimate's month ends on or before
`day`. -/
def monthEst (day : Nat) : Nat :=
  if daysBefore (day / 31 + 1) ≤ day then day / 31 + 1 else day / 31

/-- Month (1..12) and day of month (1..31) from the leap flag and the
zero-based day of year; models the month lookup of Go `time.absDate`,
including the February 29 special case and the `daysBefore` estimate
plus correction. -/
def monthDayOfYday (leap : Bool) (yd : Nat) : Nat × Nat :=
  if leap = true ∧ yd = 59 then (2, 29)
  else
    (monthEst (adjDay leap yd) + 1,
      adjDay leap yd - daysBefore (monthEst (adjDay leap yd)) + 1)

/-- Civil month of day number `z`. -/
def monthOfDays (z : Int) : Int :=
  ((monthDayOfYday (isLeapYear (yearOfDays z)) (ydayOf (withinEra z))).1 : Nat)

/-- Civil day of month of day number `z`. -/
def dayOfDays (z : Int) : Int :=
  ((monthDayOfYday (isLeapYear (yearOfDays z)) (ydayOf (withinEra z))).2 : Nat)

/-- Civil date (year, month, day) for a day number (days since the Unix
epoch); models the calendar computation of Go's `time` package
(`time.absDate`). -/
def civilFromDays (z : Int) : Int × Int × Int :=
  (yearOfDays z, monthOfDays z, dayOfDays z)

/-- A broken-down local time; models the fields Go's `time.Time.Format`
reads after `In(location)` has been applied. -/
structure DateTime where
  year : Int
  month : Int
  day : Int
  hour : Int
  minute : Int
  second : Int
deriving DecidableEq, Repr

/-- Local civil day number of instant `t` in location `loc`. -/
def localDays (loc : TimeLocation) (t : Instant) : Int := (t + loc) / 86400

/-- Seconds elapsed since local midnight of instant `t` in location `loc`. -/
def secondsOfDay (loc : TimeLocation) (t : Instant) : Int := (t + loc) % 86400

/-- Broken-down local time of instant `t` in location `loc`; models
`t.In(loc)` followed by the field reads of Go's `time.Time.Format`. -/
def toDateTime (loc : TimeLocation) (t : Instant) : DateTime :=
  { year := yearOfDays (localDays loc t)
    month := monthOfDays (localDays loc t)
    day := dayOfDays (localDays loc t)
    hour := secondsOfDay loc t / 3600
    minute := secondsOfDay loc t % 3600 / 60
    second := secondsOfDay loc t % 60 }

/-- Decimal digit characters of `n`, most significant first (empty for 0);
the first argument is recursion fuel, always called with `fuel = n`. -/
def natDigitsAux : Nat → Nat → List Char
  | 0, _ => []
  | _ + 1, 0 => []
  | fuel + 1, n + 1 => natDigitsAux fuel ((n + 1) / 10) ++ [Nat.digitChar ((n + 1) % 10)]

/-- Decimal digit characters of `n`, most significant first (empty for 0). -/
def natDigitChars (n : Nat) : List Char := natDigitsAux n n

/-- Zero-padded decimal rendering of `n` to at least width `w`; models the
zero-padded numeric verbs of Go's `time.Format` (e.g. layout `01`, `2006`). -/
def padNat (w : Nat) (n : Nat) : List Char :=
  List.replicate (w - (natDigitChars n).length) '0' ++ natDigitChars n

/-- Signed zero-padded decimal rendering, for the year field. -/
def padInt (w : Nat) (i : Int) : List Char :=
  if i < 0 then '-' :: padNat w (-i).toNat else padNat w i.toNat

/-- Interpreter for Go `time.Format` reference layouts, restricted to the
numeric verbs the repository's index formats use (`2006`, `01`, `02`, `15`,
`04`, `05`); all other characters pass through literally, exactly as Go's
formatter treats them. -/
def formatLayout (dt : DateTime) : List Char → List Char
  | '2' :: '0' :: '0' :: '6' :: rest => padInt 4 dt.year ++ formatLayout dt rest
  | '0' :: '1' :: rest => padInt 2 dt.month ++ formatLayout dt rest
  | '0' :: '2' :: rest => padInt 2 dt.day ++ formatLayout dt rest
  | '1' :: '5' :: rest => padInt 2 dt.hour ++ formatLayout dt rest
  | '0' :: '4' :: rest => padInt 2 dt.minute ++ formatLayout dt rest
  | '0' :: '5' :: rest => padInt 2 dt.second ++ formatLayout dt rest
  | c :: rest => c :: formatLayout dt rest
  | [] => []

/-- Models `t.In(loc).Format(layout)` of Go's `time` package for the layouts
used by the repository. -/
def goTimeFormat (layout : String) (loc : TimeLocation) (t : Instant) : String :=
  ⟨formatLayout (toDateTime loc t) layout.data⟩

/-- Predefined index format `DateFormatDot` ("2006.01.02"). -/
def DateFormatDot : String := "2006.01.02"

/-- Predefined index format `DateFormatDash` ("2006-01-02"). -/
def DateFormatDash : String := "2006-01-02"

/-- Predefined index format `DateFormatShort` ("20060102"). -/
def DateFormatShort : String := "20060102"

/-- The `IndexGenerator` struct: generates time-based index names. -/
structure IndexGenerator where
  baseIndexName : String
  format : String
  location : TimeLocation
deriving DecidableEq, Repr

/-- The `IndexConfig` struct: configures how index names are generated.
`Location` is an `Option` because the Go field is a nil-able pointer. -/
structure IndexConfig where
  BaseIndexName : String
  Format : String
  Location : Option TimeLocation
deriving DecidableEq, Repr

/-- Function `NewIndexGenerator`: creates a new index name generator, substituting
UTC for a nil location and `DateFormatDot` for an empty format. -/
def NewIndexGenerator (config : IndexConfig) : IndexGenerator :=
  let loc := match config.Location with
    | none => timeUTC
    | some l => l
  let fmt := if config.Format = "" then DateFormatDot else config.Format
  { baseIndexName := config.BaseIndexName, format := fmt, location := loc }

/-- Method `IndexGenerator.GetIndexName`: `fmt.Sprintf("%s-%s", g.baseIndexName,
timeNow().In(g.location).Format(g.format))`, with the injected `timeNow`
instant passed explicitly. -/
def IndexGenerator.GetIndexName (g : IndexGenerator) (now : Instant) : String :=
  g.baseIndexName ++ "-" ++ goTimeFormat g.format g.location now

/-- Counters reported by `opensearchutil.BulkIndexer.Stats()`. -/
structure BulkIndexerStats where
  NumAdded : Nat
  NumFlushed : Nat
  NumFailed : Nat
deriving DecidableEq, Repr

/-- One record handed to the bulk indexer (`opensearchutil.BulkIndexerItem`
with `Action: "index"`): the destination index name and the re-encoded
entry body. -/
structure BulkIndexerItem where
  Index : String
  Body : List Char
deriving DecidableEq, Repr

/-- Model of the external `opensearchutil.BulkIndexer` collaborator:
`configIndex` is the `Index` field of the `BulkIndexerConfig` it was built
from (fixed at construction), `items` the records accepted by `Add` in
order, `stats` its counters, and `closeCalls` how many times `Close` has
been invoked on it. -/
structure BulkIndexer where
  configIndex : String
  items : List BulkIndexerItem
  stats : BulkIndexerStats
  closeCalls : Nat
deriving DecidableEq, Repr

/-- A successful `indexer.Add`: the item is appended and `NumAdded`
counted. -/
def BulkIndexer.Add (ix : BulkIndexer) (item : BulkIndexerItem) : BulkIndexer :=
  { ix with
    items := ix.items ++ [item]
    stats := { ix.stats with NumAdded := ix.stats.NumAdded + 1 } }

/-- An invocation of `indexer.Close(ctx)` (whether it drains successfully
or fails, the call itself happened once). -/
def BulkIndexer.CloseCall (ix : BulkIndexer) : BulkIndexer :=
  { ix with closeCalls := ix.closeCalls + 1 }

/-- The `openSearchWriter` struct (mutable state guarded by `mu`):
`closed` is the Closed flag, `stopChanClosed` whether `stopChan` has been
closed (the stopping signal), plus the bulk indexer and the index-name
generator. -/
structure openSearchWriter where
  indexer : BulkIndexer
  closed : Bool
  stopChanClosed : Bool
  indexNameGenerator : IndexGenerator
deriving DecidableEq, Repr

/-- Errors `openSearchWriter.Write` can return. -/
inductive WriteError where
  | writerClosed
  | parseFailed
  | reencodeFailed
  | writerStopping
  | addFailed
deriving DecidableEq, Repr

/-- Environment of one `Write` call: whether `json.Unmarshal` of the buffer
succeeds, whether `json.Marshal` of the parsed entry succeeds, and whether
the external `indexer.Add` call errors. -/
structure WriteEnv where
  parseOk : Bool
  reencodeOk : Bool
  addErr : Bool
deriving DecidableEq, Repr

/-- Method `openSearchWriter.Write` (src/opensearch.go): under the lock it returns
`ErrWriterClosed` when closed, then parses and re-encodes the entry, then
selects on `stopChan` (returning `ErrWriterIsStopping` when the stopping
signal is raised), and otherwise hands the record to `indexer.Add` tagged
with `indexNameGenerator.GetIndexName()` evaluated at the write instant
`now`, returning `len(buffer)` on success.  Result: ((bytes accepted,
error), writer state after the call). -/
def openSearchWriter.Write (w : openSearchWriter) (buffer : List Char)
    (env : WriteEnv) (now : Instant) : (Nat × Option WriteError) × openSearchWriter :=
  if w.closed then ((0, some .writerClosed), w)
  else if !env.parseOk then ((0, some .parseFailed), w)
  else if !env.reencodeOk then ((0, some .reencodeFailed), w)
  else if w.stopChanClosed then ((0, some .writerStopping), w)
  else if env.addErr then ((0, some .addFailed), w)
  else
    ((buffer.length, none),
      { w with indexer := w.indexer.Add ⟨w.indexNameGenerator.GetIndexName now, buffer⟩ })

/-- Errors `openSearchWriter.FlushWithContext` can return. -/
inductive FlushError where
  | writerClosed
  | closeFailed
deriving DecidableEq, Repr

/-- Environment of one flush call: whether the external `indexer.Close(ctx)`
drain fails (error or context deadline exceeded). -/
structure FlushEnv where
  closeErr : Bool
deriving DecidableEq, Repr

/-- The first mutation `FlushWithContext` performs on an open writer:
`close(w.stopChan)` — the stopping signal is raised, the Closed flag not
yet flipped. -/
def openSearchWriter.flushStopSignal (w : openSearchWriter) : openSearchWriter :=
  { w with stopChanClosed := true }

/-- The second mutation: `w.closed = true`. -/
def openSearchWriter.flushMarkClosed (w : openSearchWriter) : openSearchWriter :=
  { w with closed := true }

/-- The third step: the `indexer.Close(ctx)` invocation. -/
def openSearchWriter.flushDrain (w : openSearchWriter) : openSearchWriter :=
  { w with indexer := w.indexer.CloseCall }

/-- Method `openSearchWriter.FlushWithContext` (src/opensearch.go): under the lock,
returns `ErrWriterClosed` if already closed; otherwise closes `stopChan`,
sets `closed`, and invokes `indexer.Close(ctx)`, propagating its error. -/
def openSearchWriter.FlushWithContext (w : openSearchWriter) (env : FlushEnv) :
    Option FlushError × openSearchWriter :=
  if w.closed then (some .writerClosed, w)
  else
    ((if env.closeErr then some FlushError.closeFailed else none),
      { w with
        stopChanClosed := true
        closed := true
        indexer := w.indexer.CloseCall })

/-- Method `openSearchWriter.Flush` (the context-free variant with a hard-coded
30-second deadline): it does not consult `closed`; it simply invokes
`indexer.Close` and propagates its error.  Not called by any code in the
repository (the construction path uses `FlushWithContext`). -/
def openSearchWriter.Flush (w : openSearchWriter) (env : FlushEnv) :
    Option FlushError × openSearchWriter :=
  ((if env.closeErr then some FlushError.closeFailed else none),
    { w with indexer := w.indexer.CloseCall })

/-- Options struct `LogOpts`, restricted to the fields the modelled paths
read.  `openSearchConfig` is a nil-able pointer, modelled as an `Option`
of an abstract configuration token. -/
structure LogOpts where
  withLJ : Bool
  withConsole : Bool
  devEnv : Bool
  openSearchConfig : Option Unit
  openSearchIndex : String
  indexDateFormat : String
  timeLocation : Option TimeLocation
deriving DecidableEq, Repr

/-- Type `LogOptFunc`: an option mutator. -/
abbrev LogOptFunc := LogOpts → LogOpts

/-- Function `bindLogOpts`: applies each option mutator in order. -/
def bindLogOpts (opt : LogOpts) (opts : List LogOptFunc) : LogOpts :=
  opts.foldl (fun o f => f o) opt

/-- Option `WithLJ`. -/
def WithLJ (b : Bool) : LogOptFunc := fun o => { o with withLJ := b }

/-- Option `WithConsole`. -/
def WithConsole (b : Bool) : LogOptFunc := fun o => { o with withConsole := b }

/-- Option `WithDevEnv`. -/
def WithDevEnv (b : Bool) : LogOptFunc := fun o => { o with devEnv := b }

/-- Option `WithOpenSearchConfig`. -/
def WithOpenSearchConfig (c : Option Unit) : LogOptFunc :=
  fun o => { o with openSearchConfig := c }

/-- Option `WithOpenSearchIndex`. -/
def WithOpenSearchIndex (index : String) : LogOptFunc :=
  fun o => { o with openSearchIndex := index }

/-- The sinks a constructed logger core can fan out to; the OpenSearch sink
carries a freshness token distinguishing writer generations (Go compares
cores by pointer identity in the rotation loop). -/
inductive Sink where
  | lumberjack
  | console
  | openSearch (coreId : Nat)
deriving DecidableEq, Repr

/-- Outcome of `MustNewZapLogger` (src/zlog.go): either a logger over a
non-empty core list, or the `log.Println("No logging outputs specified");
return nil` branch (`nilLogger`), or a panic.  `MustNewZapLogger` itself
never panics; the constructor is shared with claims about fail-fast
behaviour. -/
inductive ZapBuildResult where
  | logger (cores : List Sink)
  | nilLogger
  | panicked (msg : String)
deriving DecidableEq, Repr

/-- Whether a construction outcome is a fail-fast failure (a panic). -/
def ZapBuildResult.failsFast : ZapBuildResult → Bool
  | .panicked _ => true
  | _ => false

/-- Default `LogOpts` of `MustNewZapLogger`:
`{devEnv: true, level: info, withLJ: true, withConsole: true}`. -/
def mustNewZapLoggerDefaults : LogOpts :=
  { withLJ := true, withConsole := true, devEnv := true
    openSearchConfig := none, openSearchIndex := ""
    indexDateFormat := "", timeLocation := none }

/-- Function `MustNewZapLogger` (src/zlog.go), restricted to its sink-selection and
zero-sink behaviour: builds the lumberjack core and/or console core as
enabled and, when the core list is empty, logs "No logging outputs
specified" and returns nil. -/
def MustNewZapLogger (opts : List LogOptFunc) : ZapBuildResult :=
  let opt := bindLogOpts mustNewZapLoggerDefaults opts
  let cores : List Sink :=
    (if opt.withLJ then [Sink.lumberjack] else []) ++
      (if opt.withConsole then [Sink.console] else [])
  if cores.length = 0 then .nilLogger else .logger cores

/-- Function `newOpenSearchCore` (src/opensearch.go): builds the OpenSearch client,
the bulk indexer whose `BulkIndexerConfig.Index` is
`indexNameGenerator.GetIndexName()` evaluated at construction time `t`, and
a fresh open writer around them.  `createErr` abstracts failure of
`opensearch.NewClient` / `opensearchutil.NewBulkIndexer`; `coreId` is the
identity of the returned core. -/
def newOpenSearchCore (gen : IndexGenerator) (coreId : Nat) (t : Instant)
    (createErr : Bool) : Option (Nat × openSearchWriter) :=
  if createErr then none
  else
    some (coreId,
      { indexer :=
          { configIndex := gen.GetIndexName t
            items := []
            stats := ⟨0, 0, 0⟩
            closeCalls := 0 }
        closed := false
        stopChanClosed := false
        indexNameGenerator := gen })

/-- The state captured by the closure `MustNewZapLoggerWithOpenSearch`
returns: the core list, the identity of the currently installed OpenSearch
core, the `openSearchWriter` variable, the bound options (used to recreate
the generator on rotation), and a freshness supply for new cores. -/
structure OSLoggerState where
  cores : List Sink
  openSearchCoreId : Nat
  writer : openSearchWriter
  opt : LogOpts
  nextCoreId : Nat
deriving DecidableEq, Repr

/-- Outcome of `MustNewZapLoggerWithOpenSearch` (src/opensearch.go). -/
inductive OSBuildResult where
  | ok (st : OSLoggerState)
  | panicNoConfig
  | panicNoIndex
  | panicCreateFailed
  | panicNoOutputs
deriving DecidableEq, Repr

/-- Default `LogOpts` of `MustNewZapLoggerWithOpenSearch`:
`{level: info, withConsole: false, indexDateFormat: DateFormatDot,
timeLocation: time.UTC}`. -/
def mustNewOSLoggerDefaults : LogOpts :=
  { withLJ := false, withConsole := false, devEnv := false
    openSearchConfig := none, openSearchIndex := ""
    indexDateFormat := DateFormatDot, timeLocation := some timeUTC }

/-- Function `MustNewZapLoggerWithOpenSearch` (src/opensearch.go): binds options,
optionally adds the console core, panics on missing config or index,
creates the OpenSearch core (panicking on failure), appends it, checks the
(now necessarily non-empty) core list, and returns the state the flush
closure captures.  `createErr` abstracts core-creation failure and `t0` is
the construction instant. -/
def MustNewZapLoggerWithOpenSearch (opts : List LogOptFunc) (createErr : Bool)
    (t0 : Instant) : OSBuildResult :=
  let opt := bindLogOpts mustNewOSLoggerDefaults opts
  let cores : List Sink := if opt.withConsole then [Sink.console] else []
  if opt.openSearchConfig.isNone then .panicNoConfig
  else if opt.openSearchIndex = "" then .panicNoIndex
  else
    let gen := NewIndexGenerator
      ⟨opt.openSearchIndex, opt.indexDateFormat, opt.timeLocation⟩
    match newOpenSearchCore gen 0 t0 createErr with
    | none => .panicCreateFailed
    | some (cid, w) =>
      let cores := cores ++ [Sink.openSearch cid]
      if cores.length = 0 then .panicNoOutputs
      else .ok
        { cores := cores, openSearchCoreId := cid, writer := w
          opt := opt, nextCoreId := cid + 1 }

/-- The rotation loop of the flush closure: replace the first core equal to
`oldCore` with `newCore` and stop (Go: `for i, core := range cores { if
core == openSearchCore { cores[i] = newCore; ...; break } }`). -/
def swapCore : List Sink → Sink → Sink → List Sink
  | [], _, _ => []
  | c :: rest, oldCore, newCore =>
    if c = oldCore then newCore :: rest else c :: swapCore rest oldCore newCore

/-- Errors the flush closure can return: a wrapped writer-flush error, or a
core-recreation error. -/
inductive FlushFuncError where
  | flushError (e : FlushError)
  | createError
deriving DecidableEq, Repr

/-- Environment of one flush-closure call: whether the indexer drain fails,
whether recreation of the OpenSearch core fails, and the instant at which
the replacement core is created. -/
structure FlushCallEnv where
  closeErr : Bool
  createErr : Bool
  tCreate : Instant
deriving DecidableEq, Repr

/-- The `flushFunc` closure returned by `MustNewZapLoggerWithOpenSearch`:
flushes the writer (returning the wrapped error on failure, with the core
list untouched); on success creates a fresh OpenSearch core bound to a
freshly computed destination name (returning its error on failure) and
swaps it in place of the old core by identity. -/
def flushFunc (st : OSLoggerState) (env : FlushCallEnv) :
    Option FlushFuncError × OSLoggerState :=
  match st.writer.FlushWithContext ⟨env.closeErr⟩ with
  | (some e, w1) => (some (.flushError e), { st with writer := w1 })
  | (none, w1) =>
    let gen := NewIndexGenerator
      ⟨st.opt.openSearchIndex, st.opt.indexDateFormat, st.opt.timeLocation⟩
    match newOpenSearchCore gen st.nextCoreId env.tCreate env.createErr with
    | none => (some .createError, { st with writer := w1 })
    | some (cid, wNew) =>
      (none,
        { st with
          cores := swapCore st.cores (Sink.openSearch st.openSearchCoreId)
            (Sink.openSearch cid)
          openSearchCoreId := cid
          writer := wNew
          nextCoreId := cid + 1 })

/-- Option list disabling both local sinks, as in `MustNewZapLogger(
WithLJ(false), WithConsole(false))`. -/
def noSinkOpts : List LogOptFunc := [WithLJ false, WithConsole false]

/-- A sample generator for concrete instantiations. -/
def sampleGen : IndexGenerator := ⟨"zlog-test", DateFormatDot, timeUTC⟩

/-- A sample freshly-created bulk indexer. -/
def sampleIndexer : BulkIndexer :=
  { configIndex := "zlog-test-2024.01.25", items := [], stats := ⟨0, 0, 0⟩, closeCalls := 0 }

/-- A sample open writer. -/
def sampleOpenWriter : openSearchWriter :=
  { indexer := sampleIndexer, closed := false, stopChanClosed := false
    indexNameGenerator := sampleGen }

/-- A sample writer on which flush has completed. -/
def sampleClosedWriter : openSearchWriter :=
  { indexer := { sampleIndexer with closeCalls := 1 }, closed := true
    stopChanClosed := true, indexNameGenerator := sampleGen }

/-- A sample logger state as captured by the flush closure. -/
def sampleLoggerState : OSLoggerState :=
  { cores := [Sink.console, Sink.openSearch 0]
    openSearchCoreId := 0
    writer := sampleOpenWriter
    opt := { mustNewOSLoggerDefaults with
      withConsole := true, openSearchConfig := some (), openSearchIndex := "zlog-test" }
    nextCoreId := 1 }

/-- The writer `newOpenSearchCore ⟨"app-logs", DateFormatDot, timeUTC⟩ 0
1704153599 false` produces. -/
def c8SampleWriter : openSearchWriter :=
  { indexer :=
      { configIndex :=
          IndexGenerator.GetIndexName ⟨"app-logs", DateFormatDot, timeUTC⟩ 1704153599
        items := [], stats := ⟨0, 0, 0⟩, closeCalls := 0 }
    closed := false, stopChanClosed := false
    indexNameGenerator := ⟨"app-logs", DateFormatDot, timeUTC⟩ }

/-- Decoder for a digit string (most significant first); used to show the
padded renderings are injective. -/
def decodeDigits (cs : List Char) : Nat :=
  cs.foldl (fun a c => 10 * a + (c.toNat - 48)) 0

/-- The daily time bucket of instant `t` in location `loc`: its civil
(year, month, day) there. -/
def dateDaily (loc : TimeLocation) (t : Instant) : Int × Int × Int :=
  civilFromDays (localDays loc t)

/-- The hour-of-day of instant `t` in location `loc`. -/
def hourOfDay (loc : TimeLocation) (t : Instant) : Int :=
  secondsOfDay loc t / 3600

example : civilFromDays 0 = (1970, 1, 1) := by decide
example : civilFromDays 19747 = (2024, 1, 25) := by decide
example :
    IndexGenerator.GetIndexName ⟨"logs", DateFormatDot, timeUTC⟩ 1706184000 =
      "logs-2024.01.25" := by decide
example :
    IndexGenerator.GetIndexName ⟨"app-logs", DateFormatDash, tokyoLoc⟩ 1706140800 =
      "app-logs-2024-01-25" := by decide
example :
    IndexGenerator.GetIndexName ⟨"metrics", DateFormatShort, timeUTC⟩ 1706184000 =
      "metrics-20240125" := by decide
example :
    IndexGenerator.GetIndexName ⟨"hourly-logs", "2006-01-02-15", timeUTC⟩ 1706193000 =
      "hourly-logs-2024-01-25-14" := by decide
example :
    IndexGenerator.GetIndexName ⟨"logs", DateFormatDot, tokyoLoc⟩ 1704121200 =
      "logs-2024.01.02" := by decide
example :
    IndexGenerator.GetIndexName ⟨"logs", DateFormatDot, timeUTC⟩ 1704121200 =
      "logs-2024.01.01" := by decide

/-! ### Digit-string machinery -/

theorem digitChar_toNat {d : Nat} (h : d < 10) : (Nat.digitChar d).toNat - 48 = d := by
  revert h
  revert d
  decide

theorem decodeDigits_append_digit (xs : List Char) (c : Char) :
    decodeDigits (xs ++ [c]) = 10 * decodeDigits xs + (c.toNat - 48) := by
  unfold decodeDigits
  rw [List.foldl_append]
  rfl

theorem decodeDigits_replicate_zero (k : Nat) (xs : List Char) :
    decodeDigits (List.replicate k '0' ++ xs) = decodeDigits xs := by
  induction k with
  | zero => rfl
  | succ k ih =>
    rw [List.replicate_succ, List.cons_append]
    unfold decodeDigits at ih ⊢
    simpa using ih

theorem decode_natDigitsAux : ∀ fuel n, n ≤ fuel →
    decodeDigits (natDigitsAux fuel n) = n := by
  intro fuel
  induction fuel with
  | zero =>
    intro n hn
    have hn0 : n = 0 := by omega
    subst hn0
    rfl
  | succ fuel ih =>
    intro n hn
    match n with
    | 0 => rfl
    | m + 1 =>
      rw [natDigitsAux, decodeDigits_append_digit, ih ((m + 1) / 10) (by omega),
        digitChar_toNat (by omega)]
      omega

theorem decode_natDigitChars (n : Nat) : decodeDigits (natDigitChars n) = n :=
  decode_natDigitsAux n n le_rfl

theorem natDigitsAux_length : ∀ fuel n w, n ≤ fuel → n < 10 ^ w →
    (natDigitsAux fuel n).length ≤ w := by
  intro fuel
  induction fuel with
  | zero =>
    intro n w hn hw
    have hn0 : n = 0 := by omega
    subst hn0
    simp [natDigitsAux]
  | succ fuel ih =>
    intro n w hn hw
    match n with
    | 0 => simp [natDigitsAux]
    | m + 1 =>
      have hw1 : 1 ≤ w := by
        by_contra h
        have hw0 : w = 0 := by omega
        subst hw0
        simp only [pow_zero] at hw
        omega
      have hdiv : (m + 1) / 10 < 10 ^ (w - 1) := by
        rw [Nat.div_lt_iff_lt_mul (by norm_num)]
        calc m + 1 < 10 ^ w := hw
        _ = 10 ^ (w - 1) * 10 := by
            rw [← pow_succ]
            congr 1
            omega
      have := ih ((m + 1) / 10) (w - 1) (by omega) hdiv
      rw [natDigitsAux]
      simp only [List.length_append, List.length_cons, List.length_nil]
      omega

theorem natDigitChars_length {n w : Nat} (h : n < 10 ^ w) :
    (natDigitChars n).length ≤ w :=
  natDigitsAux_length n n w le_rfl h

theorem padNat_length {w n : Nat} (h : n < 10 ^ w) : (padNat w n).length = w := by
  have := natDigitChars_length h
  unfold padNat
  simp only [List.length_append, List.length_replicate]
  omega

theorem decode_padNat (w n : Nat) : decodeDigits (padNat w n) = n := by
  unfold padNat
  rw [decodeDigits_replicate_zero, decode_natDigitChars]

theorem padNat_inj {w a b : Nat} (h : padNat w a = padNat w b) : a = b := by
  have := congrArg decodeDigits h
  rwa [decode_padNat, decode_padNat] at this

theorem pad_block_inj {w a b : Nat} {r s : List Char}
    (ha : a < 10 ^ w) (hb : b < 10 ^ w)
    (h : padNat w a ++ r = padNat w b ++ s) : a = b ∧ r = s := by
  have hlen : (padNat w a).length = (padNat w b).length := by
    rw [padNat_length ha, padNat_length hb]
  obtain ⟨h1, h2⟩ := List.append_inj h hlen
  exact ⟨padNat_inj h1, h2⟩

theorem padInt_nonneg {w : Nat} {i : Int} (h : 0 ≤ i) :
    padInt w i = padNat w i.toNat := by
  unfold padInt
  rw [if_neg (by omega)]

/-! ### Bounds for the civil-calendar conversion -/

theorem withinEra_lt (z : Int) : withinEra z < 146097 := by
  unfold withinEra absDays
  omega

theorem century_le {r : Nat} (h : r < 146097) :
    century r ≤ 3 ∧ 36524 * century r ≤ r := by
  unfold century
  omega

theorem centRem_le {r : Nat} (h : r < 146097) : centRem r ≤ 36524 := by
  unfold centRem century
  omega

theorem quadRem_le {r : Nat} (h : r < 146097) : quadRem r ≤ 1460 := by
  have := centRem_le h
  unfold quadRem quadInCent
  omega

theorem ydayOf_le {r : Nat} (h : r < 146097) : ydayOf r ≤ 365 := by
  have := quadRem_le h
  unfold ydayOf yearInQuad
  omega

theorem yearsInEra_le {r : Nat} (h : r < 146097) : yearsInEra r ≤ 399 := by
  unfold yearsInEra yearInQuad quadRem quadInCent centRem century
  omega

theorem ydayOf_eq_365 {r : Nat} (h : r < 146097) (hy : ydayOf r = 365) :
    yearsInEra r % 4 = 3 ∧ (yearsInEra r % 100 = 99 → yearsInEra r = 399) := by
  unfold ydayOf yearInQuad quadRem quadInCent centRem century at hy
  unfold yearsInEra yearInQuad quadRem quadInCent centRem century
  omega

/-- When the zero-based day of year reaches 365 the year is a leap year
(this is what keeps Go's month lookup within range). -/
theorem leap_of_yday_365 (z : Int) (hy : ydayOf (withinEra z) = 365) :
    isLeapYear (yearOfDays z) = true := by
  have h := withinEra_lt z
  obtain ⟨h4, h100⟩ := ydayOf_eq_365 h hy
  have hle := yearsInEra_le h
  unfold isLeapYear yearOfDays
  simp only [Bool.or_eq_true, Bool.and_eq_true, beq_iff_eq, bne_iff_ne, ne_eq]
  by_cases hc : (400 * eraOf z + (yearsInEra (withinEra z) + 1)) % 100 = 0
  · right
    omega
  · left
    constructor
    · omega
    · exact hc

theorem monthEst_bounds {day : Nat} (h : day ≤ 364) :
    monthEst day ≤ 11 ∧ daysBefore (monthEst day) ≤ day ∧
      day < daysBefore (monthEst day + 1) := by
  unfold monthEst
  have h31 : 31 * (day / 31) ≤ day ∧ day < 31 * (day / 31) + 31 ∧ day / 31 ≤ 11 := by
    omega
  obtain ⟨ha, hb, hc⟩ := h31
  set m := day / 31 with hm
  clear_value m
  interval_cases m <;>
    · simp only [daysBefore]
      split <;> simp only [daysBefore] <;> omega

theorem daysBefore_gap : ∀ k, k ≤ 11 → daysBefore (k + 1) ≤ daysBefore k + 31 := by
  decide

theorem monthDayOfYday_bounds (leap : Bool) (yd : Nat) (hyd : yd ≤ 365)
    (h365 : yd = 365 → leap = true) :
    1 ≤ (monthDayOfYday leap yd).1 ∧ (monthDayOfYday leap yd).1 ≤ 12 ∧
      1 ≤ (monthDayOfYday leap yd).2 ∧ (monthDayOfYday leap yd).2 ≤ 31 := by
  unfold monthDayOfYday
  split
  · simp
  · rename_i hne
    have hday : adjDay leap yd ≤ 364 := by
      unfold adjDay
      split
      · omega
      · rename_i hnot
        rcases Nat.lt_or_ge yd 365 with h | h
        · omega
        · have h5 : yd = 365 := by omega
          exact absurd ⟨h365 h5, by omega⟩ (h5 ▸ hnot)
    obtain ⟨he, hlo, hhi⟩ := monthEst_bounds hday
    have hgap := daysBefore_gap (monthEst (adjDay leap yd)) he
    refine ⟨by omega, by omega, by omega, by omega⟩

theorem monthOfDays_bounds (z : Int) :
    1 ≤ monthOfDays z ∧ monthOfDays z ≤ 12 := by
  have h := withinEra_lt z
  have hyd := ydayOf_le h
  have hb := monthDayOfYday_bounds (isLeapYear (yearOfDays z)) (ydayOf (withinEra z))
    hyd (leap_of_yday_365 z)
  unfold monthOfDays
  omega

theorem dayOfDays_bounds (z : Int) :
    1 ≤ dayOfDays z ∧ dayOfDays z ≤ 31 := by
  have h := withinEra_lt z
  have hyd := ydayOf_le h
  have hb := monthDayOfYday_bounds (isLeapYear (yearOfDays z)) (ydayOf (withinEra z))
    hyd (leap_of_yday_365 z)
  unfold dayOfDays
  omega

theorem hourOfDay_bounds (loc : TimeLocation) (t : Instant) :
    0 ≤ hourOfDay loc t ∧ hourOfDay loc t ≤ 23 := by
  unfold hourOfDay secondsOfDay
  omega

/-! ### Shape of the generated names -/

theorem pow4_eq : (10 : Nat) ^ 4 = 10000 := by norm_num

theorem pow2_eq : (10 : Nat) ^ 2 = 100 := by norm_num

theorem formatLayout_dot (dt : DateTime) :
    formatLayout dt DateFormatDot.data =
      padInt 4 dt.year ++ '.' :: (padInt 2 dt.month ++ '.' :: (padInt 2 dt.day ++ [])) :=
  rfl

theorem formatLayout_hourly (dt : DateTime) :
    formatLayout dt ("2006-01-02-15" : String).data =
      padInt 4 dt.year ++ '-' :: (padInt 2 dt.month ++ '-' ::
        (padInt 2 dt.day ++ '-' :: (padInt 2 dt.hour ++ []))) :=
  rfl

theorem getIndexName_data (g : IndexGenerator) (t : Instant) :
    (g.GetIndexName t).data =
      g.baseIndexName.data ++ '-' :: formatLayout (toDateTime g.location t) g.format.data := by
  unfold IndexGenerator.GetIndexName goTimeFormat
  rw [String.data_append, String.data_append, List.append_assoc]
  rfl

theorem toNat_lt_pow4 {y : Int} (h0 : 0 ≤ y) (h : y < 10000) : y.toNat < 10 ^ 4 := by
  rw [pow4_eq]
  omega

theorem month_toNat_lt (z : Int) : (monthOfDays z).toNat < 10 ^ 2 := by
  have := monthOfDays_bounds z
  rw [pow2_eq]
  omega

theorem day_toNat_lt (z : Int) : (dayOfDays z).toNat < 10 ^ 2 := by
  have := dayOfDays_bounds z
  rw [pow2_eq]
  omega

theorem hour_toNat_lt (loc : TimeLocation) (t : Instant) :
    (hourOfDay loc t).toNat < 10 ^ 2 := by
  have := hourOfDay_bounds loc t
  rw [pow2_eq]
  omega

/-- For a fixed base and location, two instants produce the same
`DateFormatDot` name exactly when they fall in the same daily bucket. -/
theorem dailyName_eq_iff (base : String) (loc : TimeLocation) (t1 t2 : Instant)
    (h1a : 0 ≤ yearOfDays (localDays loc t1)) (h1b : yearOfDays (localDays loc t1) < 10000)
    (h2a : 0 ≤ yearOfDays (localDays loc t2)) (h2b : yearOfDays (localDays loc t2) < 10000) :
    IndexGenerator.GetIndexName ⟨base, DateFormatDot, loc⟩ t1 =
      IndexGenerator.GetIndexName ⟨base, DateFormatDot, loc⟩ t2 ↔
      dateDaily loc t1 = dateDaily loc t2 := by
  have hmb1 := monthOfDays_bounds (localDays loc t1)
  have hmb2 := monthOfDays_bounds (localDays loc t2)
  have hdb1 := dayOfDays_bounds (localDays loc t1)
  have hdb2 := dayOfDays_bounds (localDays loc t2)
  constructor
  · intro h
    have hd := congrArg String.data h
    rw [getIndexName_data, getIndexName_data] at hd
    dsimp only at hd
    rw [formatLayout_dot, formatLayout_dot] at hd
    dsimp only [toDateTime] at hd
    rw [padInt_nonneg h1a, padInt_nonneg h2a,
      padInt_nonneg (show (0 : Int) ≤ monthOfDays (localDays loc t1) by omega),
      padInt_nonneg (show (0 : Int) ≤ monthOfDays (localDays loc t2) by omega),
      padInt_nonneg (show (0 : Int) ≤ dayOfDays (localDays loc t1) by omega),
      padInt_nonneg (show (0 : Int) ≤ dayOfDays (localDays loc t2) by omega)] at hd
    have hcan := List.append_cancel_left hd
    injection hcan with _ h3
    obtain ⟨hy, h4⟩ := pad_block_inj (toNat_lt_pow4 h1a h1b) (toNat_lt_pow4 h2a h2b) h3
    injection h4 with _ h5
    obtain ⟨hm, h6⟩ := pad_block_inj (month_toNat_lt _) (month_toNat_lt _) h5
    injection h6 with _ h7
    obtain ⟨hdy, _⟩ := pad_block_inj (day_toNat_lt _) (day_toNat_lt _) h7
    unfold dateDaily civilFromDays
    simp only [Prod.mk.injEq]
    refine ⟨by omega, by omega, by omega⟩
  · intro h
    unfold dateDaily civilFromDays at h
    simp only [Prod.mk.injEq] at h
    obtain ⟨hy, hm, hdy⟩ := h
    apply String.ext
    rw [getIndexName_data, getIndexName_data]
    dsimp only
    rw [formatLayout_dot, formatLayout_dot]
    dsimp only [toDateTime]
    rw [hy, hm, hdy]

/-- For a fixed base and location, two instants produce the same
hourly-pattern name exactly when they fall in the same daily bucket and the
same hour of day. -/
theorem hourlyName_eq_iff (base : String) (loc : TimeLocation) (t1 t2 : Instant)
    (h1a : 0 ≤ yearOfDays (localDays loc t1)) (h1b : yearOfDays (localDays loc t1) < 10000)
    (h2a : 0 ≤ yearOfDays (localDays loc t2)) (h2b : yearOfDays (localDays loc t2) < 10000) :
    IndexGenerator.GetIndexName ⟨base, "2006-01-02-15", loc⟩ t1 =
      IndexGenerator.GetIndexName ⟨base, "2006-01-02-15", loc⟩ t2 ↔
      dateDaily loc t1 = dateDaily loc t2 ∧ hourOfDay loc t1 = hourOfDay loc t2 := by
  have hmb1 := monthOfDays_bounds (localDays loc t1)
  have hmb2 := monthOfDays_bounds (localDays loc t2)
  have hdb1 := dayOfDays_bounds (localDays loc t1)
  have hdb2 := dayOfDays_bounds (localDays loc t2)
  have hhb1 := hourOfDay_bounds loc t1
  have hhb2 := hourOfDay_bounds loc t2
  constructor
  · intro h
    have hd := congrArg String.data h
    rw [getIndexName_data, getIndexName_data] at hd
    dsimp only at hd
    rw [formatLayout_hourly, formatLayout_hourly] at hd
    dsimp only [toDateTime] at hd
    rw [padInt_nonneg h1a, padInt_nonneg h2a,
      padInt_nonneg (show (0 : Int) ≤ monthOfDays (localDays loc t1) by omega),
      padInt_nonneg (show (0 : Int) ≤ monthOfDays (localDays loc t2) by omega),
      padInt_nonneg (show (0 : Int) ≤ dayOfDays (localDays loc t1) by omega),
      padInt_nonneg (show (0 : Int) ≤ dayOfDays (localDays loc t2) by omega),
      padInt_nonneg (show (0 : Int) ≤ secondsOfDay loc t1 / 3600 by
        have := hourOfDay_bounds loc t1
        unfold hourOfDay at this
        omega),
      padInt_nonneg (show (0 : Int) ≤ secondsOfDay loc t2 / 3600 by
        have := hourOfDay_bounds loc t2
        unfold hourOfDay at this
        omega)] at hd
    have hcan := List.append_cancel_left hd
    injection hcan with _ h3
    obtain ⟨hy, h4⟩ := pad_block_inj (toNat_lt_pow4 h1a h1b) (toNat_lt_pow4 h2a h2b) h3
    injection h4 with _ h5
    obtain ⟨hm, h6⟩ := pad_block_inj (month_toNat_lt _) (month_toNat_lt _) h5
    injection h6 with _ h7
    obtain ⟨hdy, h8⟩ := pad_block_inj (day_toNat_lt _) (day_toNat_lt _) h7
    injection h8 with _ h9
    obtain ⟨hh, _⟩ := pad_block_inj (hour_toNat_lt loc t1) (hour_toNat_lt loc t2) h9
    refine ⟨?_, by unfold hourOfDay at *; omega⟩
    unfold dateDaily civilFromDays
    simp only [Prod.mk.injEq]
    refine ⟨by omega, by omega, by omega⟩
  · intro h
    obtain ⟨h, hh⟩ := h
    unfold dateDaily civilFromDays at h
    simp only [Prod.mk.injEq] at h
    obtain ⟨hy, hm, hdy⟩ := h
    unfold hourOfDay at hh
    apply String.ext
    rw [getIndexName_data, getIndexName_data]
    dsimp only
    rw [formatLayout_hourly, formatLayout_hourly]
    dsimp only [toDateTime]
    rw [hy, hm, hdy, hh]

/-! ### Claims about the writer lifecycle -/

/-- Claim C2: for every `openSearchWriter` whose state is Closed, every
subsequent `Write` call returns `ErrWriterClosed` with 0 bytes accepted,
never silently succeeds, and leaves the bulk indexer (items and
added/flushed/failed counters) unchanged, because the rejected record is
never handed to the indexer. -/
theorem write_after_close_rejected (w : openSearchWriter) (buffer : List Char)
    (env : WriteEnv) (now : Instant) (h : w.closed = true) :
    w.Write buffer env now = ((0, some WriteError.writerClosed), w) ∧
    (w.Write buffer env now).2.indexer.stats = w.indexer.stats ∧
    (w.Write buffer env now).2.indexer.items = w.indexer.items := by
  unfold openSearchWriter.Write
  rw [if_pos h]
  exact ⟨rfl, rfl, rfl⟩

/-- Witness for C2 at a concrete closed writer. -/
theorem write_after_close_rejected_witness :
    sampleClosedWriter.Write ("log".data) ⟨true, true, false⟩ 0 =
      ((0, some WriteError.writerClosed), sampleClosedWriter) :=
  (write_after_close_rejected sampleClosedWriter ("log".data) ⟨true, true, false⟩ 0 rfl).1

/-- Claim C3: once a flush has completed (the writer is Closed), a second
`FlushWithContext` call returns `ErrWriterClosed` and does not invoke the
underlying bulk indexer's `Close` a second time: after the first flush the
indexer has seen exactly one `Close` call more than before, and the second
flush leaves that count (and the whole writer) unchanged. -/
theorem double_flush_rejected (w : openSearchWriter) (e1 e2 : FlushEnv)
    (h : w.closed = false) :
    (w.FlushWithContext e1).2.closed = true ∧
    (w.FlushWithContext e1).2.indexer.closeCalls = w.indexer.closeCalls + 1 ∧
    ((w.FlushWithContext e1).2.FlushWithContext e2) =
      (some FlushError.writerClosed, (w.FlushWithContext e1).2) := by
  have h1 : w.FlushWithContext e1 =
      ((if e1.closeErr then some FlushError.closeFailed else none),
        { w with stopChanClosed := true, closed := true, indexer := w.indexer.CloseCall }) := by
    unfold openSearchWriter.FlushWithContext
    rw [if_neg (by simp [h])]
  rw [h1]
  refine ⟨rfl, rfl, ?_⟩
  unfold openSearchWriter.FlushWithContext
  rw [if_pos rfl]

/-- Witness for C3 at a concrete open writer. -/
theorem double_flush_rejected_witness :
    ((sampleOpenWriter.FlushWithContext ⟨false⟩).2.FlushWithContext ⟨false⟩) =
      (some FlushError.writerClosed, (sampleOpenWriter.FlushWithContext ⟨false⟩).2) :=
  (double_flush_rejected sampleOpenWriter ⟨false⟩ ⟨false⟩ rfl).2.2

/-- Claim C4: `FlushWithContext` on an open writer first raises the
stopping signal (the factored intermediate state has the signal raised but
is not yet Closed), only then flips the state to Closed, and then invokes
the bulk indexer's drain/close under the caller's deadline; a drain
failure or timeout is propagated as the returned error while the writer
stays Closed. -/
theorem flush_order_and_propagation (w : openSearchWriter) (env : FlushEnv)
    (h : w.closed = false) :
    w.FlushWithContext env =
      ((if env.closeErr then some FlushError.closeFailed else none),
        ((w.flushStopSignal).flushMarkClosed).flushDrain) ∧
    (w.flushStopSignal).stopChanClosed = true ∧
    (w.flushStopSignal).closed = false ∧
    ((w.flushStopSignal).flushMarkClosed).closed = true ∧
    (w.FlushWithContext env).2.closed = true ∧
    (w.FlushWithContext env).2.indexer.closeCalls = w.indexer.closeCalls + 1 := by
  have h1 : w.FlushWithContext env =
      ((if env.closeErr then some FlushError.closeFailed else none),
        { w with stopChanClosed := true, closed := true, indexer := w.indexer.CloseCall }) := by
    unfold openSearchWriter.FlushWithContext
    rw [if_neg (by simp [h])]
  refine ⟨?_, rfl, by simpa [openSearchWriter.flushStopSignal] using h, rfl, ?_, ?_⟩
  · rw [h1]
    rfl
  · rw [h1]
  · rw [h1]
    rfl

/-- Witness for C4: a concrete failing flush propagates the error and
leaves the writer Closed with one drain invocation. -/
theorem flush_order_and_propagation_witness :
    sampleOpenWriter.FlushWithContext ⟨true⟩ =
      (some FlushError.closeFailed,
        ((sampleOpenWriter.flushStopSignal).flushMarkClosed).flushDrain) ∧
    (sampleOpenWriter.FlushWithContext ⟨true⟩).2.closed = true :=
  ⟨(flush_order_and_propagation sampleOpenWriter ⟨true⟩ rfl).1,
    (flush_order_and_propagation sampleOpenWriter ⟨true⟩ rfl).2.2.2.2.1⟩

/-- Claim C5: whenever a flush-and-close is in progress — the stopping
signal raised but the Closed flag not yet flipped — a `Write` of a
well-formed record fails with `ErrWriterIsStopping` and hands nothing to
the bulk indexer; and every flush of an open writer passes through exactly
that in-progress state (its final state factors through
`flushStopSignal`). -/
theorem write_during_stop_window (w : openSearchWriter) (env : FlushEnv)
    (buffer : List Char) (wenv : WriteEnv) (now : Instant)
    (h : w.closed = false) (hp : wenv.parseOk = true) (hr : wenv.reencodeOk = true) :
    (w.FlushWithContext env).2 = ((w.flushStopSignal).flushMarkClosed).flushDrain ∧
    (w.flushStopSignal).stopChanClosed = true ∧
    (w.flushStopSignal).closed = false ∧
    (w.flushStopSignal).Write buffer wenv now =
      ((0, some WriteError.writerStopping), w.flushStopSignal) := by
  refine ⟨?_, rfl, by simpa [openSearchWriter.flushStopSignal] using h, ?_⟩
  · unfold openSearchWriter.FlushWithContext
    rw [if_neg (by simp [h])]
    rfl
  · unfold openSearchWriter.Write
    rw [if_neg (by simp [openSearchWriter.flushStopSignal, h]), hp, hr]
    simp [openSearchWriter.flushStopSignal]

/-- Witness for C5 at a concrete writer mid-flush. -/
theorem write_during_stop_window_witness :
    (sampleOpenWriter.flushStopSignal).Write ("log".data) ⟨true, true, false⟩ 0 =
      ((0, some WriteError.writerStopping), sampleOpenWriter.flushStopSignal) :=
  (write_during_stop_window sampleOpenWriter ⟨false⟩ ("log".data) ⟨true, true, false⟩ 0
    rfl rfl rfl).2.2.2

/-! ### Claims about the index-name generator -/

/-- Claim C6: for a fixed (base, pattern, timezone), `GetIndexName` is a
pure function of the injected instant whose value is constant on time
buckets and distinguishes buckets: with the daily dot pattern two instants
yield the same name exactly when they share the civil (year, month, day)
in the configured location (so day, month, year rollovers and a timezone
offset crossing midnight all change the name), and with the hourly pattern
exactly when they also share the hour of day.  Stated for years in
0..9999, the range Go's `2006` verb renders as four digits. -/
theorem getIndexName_bucket_iff (base : String) (loc : TimeLocation) (t1 t2 : Instant)
    (h1a : 0 ≤ yearOfDays (localDays loc t1)) (h1b : yearOfDays (localDays loc t1) < 10000)
    (h2a : 0 ≤ yearOfDays (localDays loc t2)) (h2b : yearOfDays (localDays loc t2) < 10000) :
    (IndexGenerator.GetIndexName ⟨base, DateFormatDot, loc⟩ t1 =
        IndexGenerator.GetIndexName ⟨base, DateFormatDot, loc⟩ t2 ↔
      dateDaily loc t1 = dateDaily loc t2) ∧
    (IndexGenerator.GetIndexName ⟨base, "2006-01-02-15", loc⟩ t1 =
        IndexGenerator.GetIndexName ⟨base, "2006-01-02-15", loc⟩ t2 ↔
      dateDaily loc t1 = dateDaily loc t2 ∧ hourOfDay loc t1 = hourOfDay loc t2) :=
  ⟨dailyName_eq_iff base loc t1 t2 h1a h1b h2a h2b,
    hourlyName_eq_iff base loc t1 t2 h1a h1b h2a h2b⟩

/-- Witness for C6: crossing midnight UTC between 2024-01-01T23:59:59Z and
2024-01-02T00:00:00Z changes the daily name. -/
theorem getIndexName_bucket_iff_witness :
    decide (IndexGenerator.GetIndexName ⟨"app-logs", DateFormatDot, timeUTC⟩ 1704153599 =
      IndexGenerator.GetIndexName ⟨"app-logs", DateFormatDot, timeUTC⟩ 1704153600) = false := by
  apply decide_eq_false
  intro heq
  have h := (getIndexName_bucket_iff "app-logs" timeUTC 1704153599 1704153600
    (by decide) (by decide) (by decide) (by decide)).1.mp heq
  revert h
  decide

/-- Claim C7: `GetIndexName` returns exactly the base name, a dash, and the
injected instant converted to the configured location and rendered with the
configured pattern; `NewIndexGenerator` substitutes the dotted
`2006.01.02` pattern for an empty format string and UTC for a nil
location. -/
theorem getIndexName_shape_and_defaults (config : IndexConfig) (g : IndexGenerator)
    (now : Instant) :
    (NewIndexGenerator config).baseIndexName = config.BaseIndexName ∧
    (NewIndexGenerator config).format =
      (if config.Format = "" then DateFormatDot else config.Format) ∧
    (NewIndexGenerator config).location = config.Location.getD timeUTC ∧
    g.GetIndexName now = g.baseIndexName ++ "-" ++ goTimeFormat g.format g.location now ∧
    (g.GetIndexName now).data =
      g.baseIndexName.data ++ '-' :: formatLayout (toDateTime g.location now) g.format.data := by
  refine ⟨rfl, rfl, ?_, rfl, getIndexName_data g now⟩
  obtain ⟨b, f, l⟩ := config
  cases l <;> rfl

/-! ### Claim about write-time index tagging -/

/-- Claim C8: every successful `Write` hands the bulk indexer a record
tagged with the destination name computed by `GetIndexName` at that very
write, not with the `BulkIndexerConfig.Index` name computed when the
indexer was constructed; two writes against the same writer whose instants
fall in different daily buckets therefore carry different index names. -/
theorem write_tags_current_index_name (base : String) (loc : TimeLocation) (coreId : Nat)
    (t0 t1 t2 : Instant) (w : openSearchWriter) (buffer1 buffer2 : List Char)
    (wenv : WriteEnv)
    (hw : newOpenSearchCore ⟨base, DateFormatDot, loc⟩ coreId t0 false = some (coreId, w))
    (hp : wenv.parseOk = true) (hr : wenv.reencodeOk = true) (ha : wenv.addErr = false)
    (hbucket : dateDaily loc t1 ≠ dateDaily loc t2)
    (h1a : 0 ≤ yearOfDays (localDays loc t1)) (h1b : yearOfDays (localDays loc t1) < 10000)
    (h2a : 0 ≤ yearOfDays (localDays loc t2)) (h2b : yearOfDays (localDays loc t2) < 10000) :
    w.indexer.configIndex =
      IndexGenerator.GetIndexName ⟨base, DateFormatDot, loc⟩ t0 ∧
    (w.Write buffer1 wenv t1).2.indexer.items =
      [⟨IndexGenerator.GetIndexName ⟨base, DateFormatDot, loc⟩ t1, buffer1⟩] ∧
    ((w.Write buffer1 wenv t1).2.Write buffer2 wenv t2).2.indexer.items =
      [⟨IndexGenerator.GetIndexName ⟨base, DateFormatDot, loc⟩ t1, buffer1⟩,
        ⟨IndexGenerator.GetIndexName ⟨base, DateFormatDot, loc⟩ t2, buffer2⟩] ∧
    IndexGenerator.GetIndexName ⟨base, DateFormatDot, loc⟩ t1 ≠
      IndexGenerator.GetIndexName ⟨base, DateFormatDot, loc⟩ t2 := by
  unfold newOpenSearchCore at hw
  rw [if_neg (by simp)] at hw
  simp only [Option.some.injEq, Prod.mk.injEq, true_and] at hw
  subst hw
  refine ⟨rfl, ?_, ?_, ?_⟩
  · simp [openSearchWriter.Write, BulkIndexer.Add, hp, hr, ha]
  · simp [openSearchWriter.Write, BulkIndexer.Add, hp, hr, ha]
  · intro heq
    exact hbucket ((dailyName_eq_iff base loc t1 t2 h1a h1b h2a h2b).mp heq)

/-- Witness for C8: two writes on the concrete writer, one second before and
one second after midnight 2024-01-02 UTC, land with the two different daily
names. -/
theorem write_tags_current_index_name_witness :
    ((c8SampleWriter.Write ("a".data) ⟨true, true, false⟩ 1704153599).2.Write
        ("b".data) ⟨true, true, false⟩ 1704153600).2.indexer.items =
      [⟨IndexGenerator.GetIndexName ⟨"app-logs", DateFormatDot, timeUTC⟩ 1704153599,
          "a".data⟩,
        ⟨IndexGenerator.GetIndexName ⟨"app-logs", DateFormatDot, timeUTC⟩ 1704153600,
          "b".data⟩] :=
  (write_tags_current_index_name "app-logs" timeUTC 0 1704153599 1704153599 1704153600
    c8SampleWriter ("a".data) ("b".data) ⟨true, true, false⟩ rfl rfl rfl rfl
    (by decide) (by decide) (by decide) (by decide) (by decide)).2.2.1

/-! ### Claims about logger construction and flush-and-rotate -/

/-- Claim C1: for the state captured by `MustNewZapLoggerWithOpenSearch`'s
flush closure, a successful flush call installs a freshly created
OpenSearch core and writer in place of the old one — the new writer is
open (not closed, stop signal down, no pending items), bound to a freshly
computed destination name, and a write issued immediately afterwards is
accepted and tagged with the name computed at the write instant — while
the old, now closed writer rejects writes with `ErrWriterClosed`; if the
writer's flush fails, the flush closure returns that error and the old
core remains installed (core list and core identity unchanged). -/
theorem flush_rotate_protocol (st : OSLoggerState) (envF envS : FlushCallEnv)
    (h : st.writer.closed = false)
    (hF : envF.closeErr = true)
    (hS1 : envS.closeErr = false) (hS2 : envS.createErr = false) :
    (flushFunc st envF).1 = some (FlushFuncError.flushError FlushError.closeFailed) ∧
    (flushFunc st envF).2.cores = st.cores ∧
    (flushFunc st envF).2.openSearchCoreId = st.openSearchCoreId ∧
    (flushFunc st envS).1 = none ∧
    (flushFunc st envS).2.cores =
      swapCore st.cores (Sink.openSearch st.openSearchCoreId)
        (Sink.openSearch st.nextCoreId) ∧
    (flushFunc st envS).2.openSearchCoreId = st.nextCoreId ∧
    (flushFunc st envS).2.writer.closed = false ∧
    (flushFunc st envS).2.writer.stopChanClosed = false ∧
    (flushFunc st envS).2.writer.indexer.items = [] ∧
    (flushFunc st envS).2.writer.indexer.configIndex =
      (NewIndexGenerator ⟨st.opt.openSearchIndex, st.opt.indexDateFormat,
        st.opt.timeLocation⟩).GetIndexName envS.tCreate ∧
    (∀ buffer wenv tW, wenv.parseOk = true → wenv.reencodeOk = true →
      wenv.addErr = false →
      ((flushFunc st envS).2.writer.Write buffer wenv tW).1 = (buffer.length, none) ∧
      ((flushFunc st envS).2.writer.Write buffer wenv tW).2.indexer.items =
        [⟨(NewIndexGenerator ⟨st.opt.openSearchIndex, st.opt.indexDateFormat,
            st.opt.timeLocation⟩).GetIndexName tW, buffer⟩]) ∧
    (∀ buffer wenv tW,
      ((st.writer.FlushWithContext ⟨envS.closeErr⟩).2.Write buffer wenv tW).1 =
        (0, some WriteError.writerClosed)) := by
  have hflushF : st.writer.FlushWithContext ⟨envF.closeErr⟩ =
      (some FlushError.closeFailed,
        { st.writer with
          stopChanClosed := true, closed := true,
          indexer := st.writer.indexer.CloseCall }) := by
    unfold openSearchWriter.FlushWithContext
    rw [if_neg (by simp [h]), hF]
    rfl
  have hflushS : st.writer.FlushWithContext ⟨envS.closeErr⟩ =
      (none,
        { st.writer with
          stopChanClosed := true, closed := true,
          indexer := st.writer.indexer.CloseCall }) := by
    unfold openSearchWriter.FlushWithContext
    rw [if_neg (by simp [h]), hS1]
    rfl
  have hfF : flushFunc st envF =
      (some (FlushFuncError.flushError FlushError.closeFailed),
        { st with writer :=
            { st.writer with
              stopChanClosed := true, closed := true,
              indexer := st.writer.indexer.CloseCall } }) := by
    unfold flushFunc
    rw [hflushF]
  have hcreate : newOpenSearchCore
      (NewIndexGenerator ⟨st.opt.openSearchIndex, st.opt.indexDateFormat,
        st.opt.timeLocation⟩) st.nextCoreId envS.tCreate envS.createErr =
      some (st.nextCoreId,
        { indexer :=
            { configIndex := (NewIndexGenerator ⟨st.opt.openSearchIndex,
                st.opt.indexDateFormat, st.opt.timeLocation⟩).GetIndexName envS.tCreate,
              items := [], stats := ⟨0, 0, 0⟩, closeCalls := 0 },
          closed := false, stopChanClosed := false,
          indexNameGenerator := NewIndexGenerator ⟨st.opt.openSearchIndex,
            st.opt.indexDateFormat, st.opt.timeLocation⟩ }) := by
    unfold newOpenSearchCore
    rw [hS2, if_neg (by simp)]
  have hfS : flushFunc st envS =
      (none,
        { st with
          cores := swapCore st.cores (Sink.openSearch st.openSearchCoreId)
            (Sink.openSearch st.nextCoreId),
          openSearchCoreId := st.nextCoreId,
          writer :=
            { indexer :=
                { configIndex := (NewIndexGenerator ⟨st.opt.openSearchIndex,
                    st.opt.indexDateFormat, st.opt.timeLocation⟩).GetIndexName
                      envS.tCreate,
                  items := [], stats := ⟨0, 0, 0⟩, closeCalls := 0 },
              closed := false, stopChanClosed := false,
              indexNameGenerator := NewIndexGenerator ⟨st.opt.openSearchIndex,
                st.opt.indexDateFormat, st.opt.timeLocation⟩ },
          nextCoreId := st.nextCoreId + 1 }) := by
    unfold flushFunc
    rw [hflushS]
    simp only []
    rw [hcreate]
  refine ⟨by rw [hfF], by rw [hfF], by rw [hfF], by rw [hfS], by rw [hfS], by rw [hfS],
    by rw [hfS], by rw [hfS], by rw [hfS], by rw [hfS], ?_, ?_⟩
  · intro buffer wenv tW hp hr ha
    rw [hfS]
    constructor
    · simp [openSearchWriter.Write, hp, hr, ha]
    · simp [openSearchWriter.Write, BulkIndexer.Add, hp, hr, ha]
  · intro buffer wenv tW
    rw [hflushS]
    simp [openSearchWriter.Write]

/-- Witness for C1 at a concrete logger state: a failing flush surfaces the
error; a successful flush returns nil, swaps core 0 for fresh core 1, and
leaves an open writer. -/
theorem flush_rotate_protocol_witness :
    (flushFunc sampleLoggerState ⟨true, false, 0⟩).1 =
      some (FlushFuncError.flushError FlushError.closeFailed) ∧
    (flushFunc sampleLoggerState ⟨false, false, 0⟩).1 = none ∧
    (flushFunc sampleLoggerState ⟨false, false, 0⟩).2.cores =
      [Sink.console, Sink.openSearch 1] ∧
    (flushFunc sampleLoggerState ⟨false, false, 0⟩).2.writer.closed = false := by
  have hthm := flush_rotate_protocol sampleLoggerState ⟨true, false, 0⟩ ⟨false, false, 0⟩
    rfl rfl rfl rfl
  refine ⟨hthm.1, hthm.2.2.2.1, ?_, hthm.2.2.2.2.2.2.1⟩
  rw [hthm.2.2.2.2.1]
  decide

/-- Claim C9 counterexample: `MustNewZapLogger` invoked with both the
rotating-file output and the console output disabled does not fail fast —
it returns nil after logging a message, i.e. construction completes
normally with no panic (and with no logger). -/
theorem zero_sink_counterexample :
    MustNewZapLogger noSinkOpts = ZapBuildResult.nilLogger ∧
    (MustNewZapLogger noSinkOpts).failsFast = false :=
  ⟨rfl, rfl⟩

/-- Claim C9, amended: if zero sinks are configured, `MustNewZapLogger`
logs "No logging outputs specified" and returns nil rather than a logger —
construction neither panics (does not fail fast) nor produces a silent
no-op logger. -/
theorem zero_sink_returns_nil (opts : List LogOptFunc)
    (hLJ : (bindLogOpts mustNewZapLoggerDefaults opts).withLJ = false)
    (hC : (bindLogOpts mustNewZapLoggerDefaults opts).withConsole = false) :
    MustNewZapLogger opts = ZapBuildResult.nilLogger ∧
    (MustNewZapLogger opts).failsFast = false := by
  have hres : MustNewZapLogger opts = ZapBuildResult.nilLogger := by
    simp [MustNewZapLogger, hLJ, hC]
  refine ⟨hres, ?_⟩
  rw [hres]
  rfl

/-- Witness for the amended C9 at the concrete no-sink option list. -/
theorem zero_sink_returns_nil_witness :
    MustNewZapLogger noSinkOpts = ZapBuildResult.nilLogger :=
  (zero_sink_returns_nil noSinkOpts rfl rfl).1

/-- Claim C10: in `MustNewZapLoggerWithOpenSearch` the "No logging outputs
specified" panic is unreachable: every execution either panics earlier (on
missing config, missing index or core-creation failure) or has appended
the OpenSearch core before the length check, so the core list is never
empty there. -/
theorem no_outputs_panic_unreachable (opts : List LogOptFunc) (createErr : Bool)
    (t0 : Instant) :
    MustNewZapLoggerWithOpenSearch opts createErr t0 ≠ OSBuildResult.panicNoOutputs := by
  unfold MustNewZapLoggerWithOpenSearch
  dsimp only
  split
  · intro hcon
    exact OSBuildResult.noConfusion hcon
  · split
    · intro hcon
      exact OSBuildResult.noConfusion hcon
    · split
      · intro hcon
        exact OSBuildResult.noConfusion hcon
      · rw [if_neg (by simp)]
        intro hcon
        exact OSBuildResult.noConfusion hcon

/-- Witness for C10 at concrete options: the result is not the
no-outputs panic. -/
theorem no_outputs_panic_unreachable_witness :
    decide (MustNewZapLoggerWithOpenSearch
      [WithOpenSearchConfig (some ()), WithOpenSearchIndex "zlog-test"] false 0 =
        OSBuildResult.panicNoOutputs) = false :=
  decide_eq_false (no_outputs_panic_unreachable
    [WithOpenSearchConfig (some ()), WithOpenSearchIndex "zlog-test"] false 0)
